import Mathlib

/-!
Verification of the Timber Frame Designer program.

The Python source (`timber_frame_designer.py`) is shallowly embedded here:
Python floats become exact rationals `ℚ`, the insertion-ordered dictionaries
become association lists, and each method becomes a Lean function mirroring
the source line by line.
-/

namespace TimberFrame

/-- `TimberFrameDesigner.post_sizes`: half-open load ranges `[min, max)` to
post `[width, depth]` (inches), in the dictionary's insertion order. -/
def post_sizes : List ((ℚ × ℚ) × (ℕ × ℕ)) :=
  [((0, 30), (6, 6)),
   ((30, 50), (8, 8)),
   ((50, 70), (10, 10)),
   ((70, 100), (12, 12))]

/-- `TimberFrameDesigner.get_post_size`: scan `post_sizes` in order, return
the size of the first bucket with `min_load <= snow_load < max_load`;
default `[12, 12]` if none matches. -/
def get_post_size (snow_load : ℚ) : ℕ × ℕ :=
  match post_sizes.find? (fun e => decide (e.1.1 ≤ snow_load ∧ snow_load < e.1.2)) with
  | some e => e.2
  | none => (12, 12)

/-- `TimberFrameDesigner.beam_sizes`: `(span_ft, snow_load_psf)` to beam
`[width, depth]` (inches). -/
def beam_sizes : List ((ℚ × ℚ) × (ℕ × ℕ)) :=
  [((16, 30), (6, 10)), ((16, 50), (6, 12)), ((16, 70), (8, 12)), ((16, 100), (8, 14)),
   ((24, 30), (8, 12)), ((24, 50), (8, 14)), ((24, 70), (10, 14)), ((24, 100), (10, 16)),
   ((32, 30), (8, 14)), ((32, 50), (10, 16)), ((32, 70), (12, 16)), ((32, 100), (12, 18)),
   ((40, 30), (10, 16)), ((40, 50), (12, 18)), ((40, 70), (12, 20)), ((40, 100), (14, 20))]

/-- `TimberFrameDesigner.rafter_sizes`: `(span_ft, snow_load_psf)` to rafter
`[width, depth]` (inches). -/
def rafter_sizes : List ((ℚ × ℚ) × (ℕ × ℕ)) :=
  [((16, 30), (4, 8)), ((16, 50), (6, 8)), ((16, 70), (6, 10)), ((16, 100), (6, 12)),
   ((24, 30), (6, 10)), ((24, 50), (6, 12)), ((24, 70), (8, 12)), ((24, 100), (8, 14))]

/-- Python's `min(xs, default=d)`: the minimum of `xs`, or `d` when `xs` is
empty. -/
def pyMinDefault (xs : List ℚ) (d : ℚ) : ℚ :=
  match xs with
  | [] => d
  | x :: rest => rest.foldl min x

/-- The span category computed inside `get_beam_size`:
`min([s for s in [16, 24, 32, 40] if span_ft <= s], default=40)`. -/
def beam_span_cat (span_ft : ℚ) : ℚ :=
  pyMinDefault (([16, 24, 32, 40] : List ℚ).filter (fun s => decide (span_ft ≤ s))) 40

/-- The load category computed inside `get_beam_size` and `get_rafter_size`:
`min([l for l in [30, 50, 70, 100] if snow_load <= l], default=100)`. -/
def load_cat (snow_load : ℚ) : ℚ :=
  pyMinDefault (([30, 50, 70, 100] : List ℚ).filter (fun l => decide (snow_load ≤ l))) 100

/-- `TimberFrameDesigner.get_beam_size`: classify span and load into
categories, then `beam_sizes.get((span_cat, load_cat), [12, 18])`. -/
def get_beam_size (span_ft snow_load : ℚ) : ℕ × ℕ :=
  match beam_sizes.find? (fun e => decide (e.1 = (beam_span_cat span_ft, load_cat snow_load))) with
  | some e => e.2
  | none => (12, 18)

/-- The span category computed inside `get_rafter_size`:
`min([s for s in [16, 24] if span_ft <= s], default=24)`. -/
def rafter_span_cat (span_ft : ℚ) : ℚ :=
  pyMinDefault (([16, 24] : List ℚ).filter (fun s => decide (span_ft ≤ s))) 24

/-- `TimberFrameDesigner.get_rafter_size`: classify span and load into
categories, then `rafter_sizes.get((span_cat, load_cat), [8, 14])`. -/
def get_rafter_size (span_ft snow_load : ℚ) : ℕ × ℕ :=
  match rafter_sizes.find? (fun e => decide (e.1 = (rafter_span_cat span_ft, load_cat snow_load))) with
  | some e => e.2
  | none => (8, 14)

/-- Python's `int()` on a float: truncation toward zero (floor for
non-negative arguments, ceiling for negative ones). -/
def pyInt (q : ℚ) : ℤ :=
  if 0 ≤ q then ⌊q⌋ else ⌈q⌉

/-- The validated operator input of `TimberFrameStructure.__init__`. -/
structure StructureSpec where
  length : ℚ
  width : ℚ
  wall_height : ℚ
  roof_pitch : ℚ
  snow_load : ℚ

/-- The fields set by `TimberFrameStructure.calculate_dimensions`. -/
structure DerivedGeometry where
  post_size : ℕ × ℕ
  beam_size : ℕ × ℕ
  rafter_size : ℕ × ℕ
  ridge_height : ℚ
  num_bents : ℤ
  bent_spacing : ℚ

/-- `TimberFrameStructure.calculate_dimensions`, line by line: member sizes
from the selectors, `ridge_height = wall_height + (width/2) * roof_pitch`,
`num_bents = max(2, int(length / 12) + 1)` with `ideal_spacing = 12`, and
`bent_spacing = length / (num_bents - 1) if num_bents > 1 else length`. -/
def calculate_dimensions (s : StructureSpec) : DerivedGeometry :=
  let post_size := get_post_size s.snow_load
  let beam_size := get_beam_size s.width s.snow_load
  let rafter_span := s.width / 2
  let rafter_size := get_rafter_size rafter_span s.snow_load
  let ridge_height := s.wall_height + (s.width / 2) * s.roof_pitch
  let ideal_spacing : ℚ := 12
  let num_bents : ℤ := max 2 (pyInt (s.length / ideal_spacing) + 1)
  let bent_spacing : ℚ := if num_bents > 1 then s.length / ((num_bents : ℚ) - 1) else s.length
  ⟨post_size, beam_size, rafter_size, ridge_height, num_bents, bent_spacing⟩

/-- The approximate material quantities printed by
`TimberFrameStructure.get_structure_report`: piece counts for posts
(`num_bents * 2`), beams (`num_bents`), rafters (`num_bents * 2`) and wall
plates (`int(np.ceil(length * 2 / 16))`). -/
structure MaterialQuantities where
  post_pieces : ℤ
  beam_pieces : ℤ
  rafter_pieces : ℤ
  plate_pieces : ℤ

/-- The material-quantity lines of `get_structure_report`, computed from the
spec exactly as the report's f-string expressions do. -/
def report_quantities (s : StructureSpec) : MaterialQuantities :=
  let g := calculate_dimensions s
  ⟨g.num_bents * 2, g.num_bents, g.num_bents * 2, pyInt ((⌈s.length * 2 / 16⌉ : ℤ) : ℚ)⟩

/-- The rafter length printed by `get_structure_report`:
`(width / 2) / np.cos(np.arctan(roof_pitch))`. -/
noncomputable def report_rafter_length (s : StructureSpec) : ℝ :=
  ((s.width : ℝ) / 2) / Real.cos (Real.arctan (s.roof_pitch : ℝ))

/-- `get_positive_float(prompt, min_val, max_val)`, with the endless
`while True` loop modelled on a finite stream of typed lines: each line is
parsed (`ValueError` → re-prompt), then rejected and re-prompted when
`value <= 0`, when `min_val` is set and `value < min_val`, or when
`max_val` is set and `value > max_val`; the first surviving value is
returned. `none` means the stream ran out before a value was accepted. -/
def get_positive_float (min_val max_val : Option ℚ) : List (Option ℚ) → Option ℚ
  | [] => none
  | line :: rest =>
    match line with
    | none => get_positive_float min_val max_val rest
    | some value =>
      if value ≤ 0 then get_positive_float min_val max_val rest
      else if min_val.any (fun m => decide (value < m)) then
        get_positive_float min_val max_val rest
      else if max_val.any (fun m => decide (m < value)) then
        get_positive_float min_val max_val rest
      else some value

/-- `c` is the smallest element of `cats` that is at least `x`. -/
def smallest_cat_ge (cats : List ℚ) (x c : ℚ) : Prop :=
  c ∈ cats ∧ x ≤ c ∧ ∀ d ∈ cats, x ≤ d → c ≤ d

/-- The bounds `main` enforces on each prompted parameter: length in
`[10, 100]`, width in `[10, 60]`, wall height in `[6, 20]`, roof pitch in
`[2/12, 16/12]` (rise in `[2, 16]` divided by 12), snow load in
`[5, 200]`. -/
def valid_spec (s : StructureSpec) : Prop :=
  10 ≤ s.length ∧ s.length ≤ 100 ∧ 10 ≤ s.width ∧ s.width ≤ 60 ∧
  6 ≤ s.wall_height ∧ s.wall_height ≤ 20 ∧
  1/6 ≤ s.roof_pitch ∧ s.roof_pitch ≤ 4/3 ∧
  5 ≤ s.snow_load ∧ s.snow_load ≤ 200

/-- The spec's acceptance condition for `get_positive_float`, written from
its words rather than from the code: the value is positive and within the
stated bounds. -/
def spec_accepts (min_val max_val : Option ℚ) (value : ℚ) : Bool :=
  decide (0 < value) &&
    (match min_val with | none => true | some m => decide (m ≤ value)) &&
    (match max_val with | none => true | some m => decide (value ≤ m))

section Bridging

/-- The `find?` scan of `get_post_size` as an if-chain, for non-negative
loads. -/
lemma get_post_size_eq (L : ℚ) (h0 : 0 ≤ L) :
    get_post_size L =
      if L < 30 then (6, 6)
      else if L < 50 then (8, 8)
      else if L < 70 then (10, 10)
      else (12, 12) := by
  unfold get_post_size post_sizes
  rcases lt_or_le L 30 with h1 | h1
  · simp [List.find?, h0, h1]
  · rcases lt_or_le L 50 with h2 | h2
    · simp [List.find?, h0, h1, h2, not_lt.mpr h1]
    · rcases lt_or_le L 70 with h3 | h3
      · simp [List.find?, h0, h1, h2, h3, not_lt.mpr h1, not_lt.mpr h2]
      · rcases lt_or_le L 100 with h4 | h4
        · simp [List.find?, h0, h1, h2, h3, h4, not_lt.mpr h1, not_lt.mpr h2, not_lt.mpr h3]
        · simp [List.find?, h0, h1, h2, h3, h4, not_lt.mpr h1, not_lt.mpr h2, not_lt.mpr h3,
            not_lt.mpr h4]

/-- The beam span classifier as an if-chain. -/
lemma beam_span_cat_eq (x : ℚ) :
    beam_span_cat x =
      if x ≤ 16 then 16 else if x ≤ 24 then 24 else if x ≤ 32 then 32 else 40 := by
  unfold beam_span_cat pyMinDefault
  rcases le_or_lt x 16 with h1 | h1
  · have h2 : x ≤ 24 := by linarith
    have h3 : x ≤ 32 := by linarith
    have h4 : x ≤ 40 := by linarith
    simp [List.filter, h1, h2, h3, h4]
    norm_num [min_def]
  · rcases le_or_lt x 24 with h2 | h2
    · have h3 : x ≤ 32 := by linarith
      have h4 : x ≤ 40 := by linarith
      simp [List.filter, not_le.mpr h1, h1, h2, h3, h4]
      norm_num [min_def]
    · rcases le_or_lt x 32 with h3 | h3
      · have h4 : x ≤ 40 := by linarith
        simp [List.filter, h1, h2, h3, h4, not_le.mpr h1, not_le.mpr h2]
        norm_num [min_def]
      · rcases le_or_lt x 40 with h4 | h4
        · simp [List.filter, h1, h2, h3, h4, not_le.mpr h1, not_le.mpr h2, not_le.mpr h3]
        · simp [List.filter, h1, h2, h3, h4, not_le.mpr h1, not_le.mpr h2, not_le.mpr h3,
            not_le.mpr h4]

/-- The rafter span classifier as an if-chain. -/
lemma rafter_span_cat_eq (x : ℚ) :
    rafter_span_cat x = if x ≤ 16 then 16 else if x ≤ 24 then 24 else 24 := by
  unfold rafter_span_cat pyMinDefault
  rcases le_or_lt x 16 with h1 | h1
  · have h2 : x ≤ 24 := by linarith
    simp [List.filter, h1, h2]
    norm_num [min_def]
  · rcases le_or_lt x 24 with h2 | h2
    · simp [List.filter, h1, h2, not_le.mpr h1]
    · simp [List.filter, h1, h2, not_le.mpr h1, not_le.mpr h2]

/-- The load classifier as an if-chain. -/
lemma load_cat_eq (x : ℚ) :
    load_cat x =
      if x ≤ 30 then 30 else if x ≤ 50 then 50 else if x ≤ 70 then 70 else 100 := by
  unfold load_cat pyMinDefault
  rcases le_or_lt x 30 with h1 | h1
  · have h2 : x ≤ 50 := by linarith
    have h3 : x ≤ 70 := by linarith
    have h4 : x ≤ 100 := by linarith
    simp [List.filter, h1, h2, h3, h4]
    norm_num [min_def]
  · rcases le_or_lt x 50 with h2 | h2
    · have h3 : x ≤ 70 := by linarith
      have h4 : x ≤ 100 := by linarith
      simp [List.filter, not_le.mpr h1, h1, h2, h3, h4]
      norm_num [min_def]
    · rcases le_or_lt x 70 with h3 | h3
      · have h4 : x ≤ 100 := by linarith
        simp [List.filter, h1, h2, h3, h4, not_le.mpr h1, not_le.mpr h2]
        norm_num [min_def]
      · rcases le_or_lt x 100 with h4 | h4
        · simp [List.filter, h1, h2, h3, h4, not_le.mpr h1, not_le.mpr h2, not_le.mpr h3]
        · simp [List.filter, h1, h2, h3, h4, not_le.mpr h1, not_le.mpr h2, not_le.mpr h3,
            not_le.mpr h4]

/-- The beam span classifier only ever produces one of the four table
categories. -/
lemma beam_span_cat_cases (x : ℚ) :
    beam_span_cat x = 16 ∨ beam_span_cat x = 24 ∨ beam_span_cat x = 32 ∨
      beam_span_cat x = 40 := by
  rw [beam_span_cat_eq]
  split_ifs <;> simp

/-- The rafter span classifier only ever produces one of the two table
categories. -/
lemma rafter_span_cat_cases (x : ℚ) :
    rafter_span_cat x = 16 ∨ rafter_span_cat x = 24 := by
  rw [rafter_span_cat_eq]
  split_ifs <;> simp

/-- The load classifier only ever produces one of the four table
categories. -/
lemma load_cat_cases (x : ℚ) :
    load_cat x = 30 ∨ load_cat x = 50 ∨ load_cat x = 70 ∨ load_cat x = 100 := by
  rw [load_cat_eq]
  split_ifs <;> simp

/-- The `num_bents` field of `calculate_dimensions`, read off the
definition. -/
lemma calc_num_bents (s : StructureSpec) :
    (calculate_dimensions s).num_bents = max 2 (pyInt (s.length / 12) + 1) := rfl

/-- The `bent_spacing` field of `calculate_dimensions`, read off the
definition. -/
lemma calc_bent_spacing (s : StructureSpec) :
    (calculate_dimensions s).bent_spacing =
      if (calculate_dimensions s).num_bents > 1 then
        s.length / (((calculate_dimensions s).num_bents : ℚ) - 1)
      else s.length := rfl

/-- The `ridge_height` field of `calculate_dimensions`, read off the
definition. -/
lemma calc_ridge_height (s : StructureSpec) :
    (calculate_dimensions s).ridge_height = s.wall_height + s.width / 2 * s.roof_pitch := rfl

/-- Python `int()` is the identity on a float holding an integer value. -/
lemma pyInt_intCast (m : ℤ) : pyInt (m : ℚ) = m := by
  unfold pyInt
  split_ifs <;> simp

end Bridging

/-- Claim C1: for every snow load `L ≥ 0`, `get_post_size` returns `(6, 6)`
on `[0, 30)`, `(8, 8)` on `[30, 50)`, `(10, 10)` on `[50, 70)`, `(12, 12)`
on `[70, 100)`, and the fallback `(12, 12)` for `L ≥ 100`.  Determinism and
totality over all non-negative loads hold by construction: `get_post_size`
is a total Lean function. -/
theorem post_size_buckets (L : ℚ) (h0 : 0 ≤ L) :
    (L < 30 → get_post_size L = (6, 6)) ∧
    (30 ≤ L ∧ L < 50 → get_post_size L = (8, 8)) ∧
    (50 ≤ L ∧ L < 70 → get_post_size L = (10, 10)) ∧
    (70 ≤ L ∧ L < 100 → get_post_size L = (12, 12)) ∧
    (100 ≤ L → get_post_size L = (12, 12)) := by
  rw [get_post_size_eq L h0]
  refine ⟨fun h => ?_, fun h => ?_, fun h => ?_, fun h => ?_, fun h => ?_⟩ <;>
    [skip; obtain ⟨ha, hb⟩ := h; obtain ⟨ha, hb⟩ := h; obtain ⟨ha, hb⟩ := h; skip] <;>
    split_ifs <;> first | rfl | linarith

/-- Witness for C1: the bucket theorem applied at the concrete load 42. -/
theorem post_size_buckets_witness :
    (0 : ℚ) ≤ 42 ∧ get_post_size 42 = (8, 8) :=
  ⟨by norm_num, (post_size_buckets 42 (by norm_num)).2.1 ⟨by norm_num, by norm_num⟩⟩

/-- Claim C2: the span and load classifiers inside `get_beam_size` and
`get_rafter_size` pick the smallest predefined category that is `≥` the
input (an input equal to a category value gets that category), fall back to
the largest category when the input exceeds all of them, and the selectors
are the total table lookup on the classified pair with a hardcoded default,
so no input raises an exception. -/
theorem category_classification (span load : ℚ) :
    (span ≤ 40 → smallest_cat_ge [16, 24, 32, 40] span (beam_span_cat span)) ∧
    (40 < span → beam_span_cat span = 40) ∧
    (span ≤ 24 → smallest_cat_ge [16, 24] span (rafter_span_cat span)) ∧
    (24 < span → rafter_span_cat span = 24) ∧
    (load ≤ 100 → smallest_cat_ge [30, 50, 70, 100] load (load_cat load)) ∧
    (100 < load → load_cat load = 100) ∧
    get_beam_size span load =
      ((beam_sizes.find?
          (fun e => decide (e.1 = (beam_span_cat span, load_cat load)))).map Prod.snd).getD
        (12, 18) ∧
    get_rafter_size span load =
      ((rafter_sizes.find?
          (fun e => decide (e.1 = (rafter_span_cat span, load_cat load)))).map Prod.snd).getD
        (8, 14) := by
  refine ⟨fun h => ?_, fun h => ?_, fun h => ?_, fun h => ?_, fun h => ?_, fun h => ?_, ?_, ?_⟩
  · rw [beam_span_cat_eq]
    split_ifs <;>
      exact ⟨by norm_num, by linarith, fun d hd hxd => by fin_cases hd <;> linarith⟩
  · rw [beam_span_cat_eq]
    split_ifs <;> first | rfl | linarith
  · rw [rafter_span_cat_eq]
    split_ifs <;>
      exact ⟨by norm_num, by linarith, fun d hd hxd => by fin_cases hd <;> linarith⟩
  · rw [rafter_span_cat_eq]
    split_ifs <;> first | rfl | linarith
  · rw [load_cat_eq]
    split_ifs <;>
      exact ⟨by norm_num, by linarith, fun d hd hxd => by fin_cases hd <;> linarith⟩
  · rw [load_cat_eq]
    split_ifs <;> first | rfl | linarith
  · unfold get_beam_size
    cases h : beam_sizes.find?
        (fun e => decide (e.1 = (beam_span_cat span, load_cat load))) <;> simp [h]
  · unfold get_rafter_size
    cases h : rafter_sizes.find?
        (fun e => decide (e.1 = (rafter_span_cat span, load_cat load))) <;> simp [h]

/-- Claim C3: `get_beam_size(16, 30) = (6, 10)` and
`get_beam_size(20, 45) = (8, 14)`, with span 20 classified as category 24
and load 45 as category 50. -/
theorem beam_size_examples :
    get_beam_size 16 30 = (6, 10) ∧ get_beam_size 20 45 = (8, 14) ∧
    beam_span_cat 20 = 24 ∧ load_cat 45 = 50 :=
  ⟨by decide, by decide, by decide, by decide⟩

/-- Claim C4: for every valid spec, `num_bents = max(2, int(length/12) + 1)`
with Python `int()` acting as the floor on the non-negative quotient, so
`num_bents` is an integer that is always at least 2. -/
theorem num_bents_formula (s : StructureSpec) (h : valid_spec s) :
    (calculate_dimensions s).num_bents = max 2 (⌊s.length / 12⌋ + 1) ∧
    2 ≤ (calculate_dimensions s).num_bents := by
  have h0 : (0 : ℚ) ≤ s.length / 12 := div_nonneg (by linarith [h.1]) (by norm_num)
  refine ⟨?_, ?_⟩
  · rw [calc_num_bents, pyInt, if_pos h0]
  · rw [calc_num_bents]
    exact le_max_left _ _

/-- Witness for C4: the `num_bents` formula at the spec's end-to-end
example (length 40 gives `max 2 (3 + 1) = 4` bents). -/
theorem num_bents_formula_witness :
    valid_spec ⟨40, 30, 10, 1/2, 40⟩ ∧
    (calculate_dimensions ⟨40, 30, 10, 1/2, 40⟩).num_bents = max 2 (⌊(40 : ℚ) / 12⌋ + 1) ∧
    2 ≤ (calculate_dimensions ⟨40, 30, 10, 1/2, 40⟩).num_bents :=
  ⟨by norm_num [valid_spec],
    (num_bents_formula ⟨40, 30, 10, 1/2, 40⟩ (by norm_num [valid_spec])).1,
    (num_bents_formula ⟨40, 30, 10, 1/2, 40⟩ (by norm_num [valid_spec])).2⟩

/-- Claim C5: for every valid spec, `num_bents > 1` and, in exact rational
arithmetic, `bent_spacing * (num_bents - 1) = length`: the bents are spread
evenly across the exact building length. -/
theorem bent_spacing_times_gaps (s : StructureSpec) (h : valid_spec s) :
    1 < (calculate_dimensions s).num_bents ∧
    (calculate_dimensions s).bent_spacing * (((calculate_dimensions s).num_bents : ℚ) - 1) =
      s.length := by
  have h2 : 2 ≤ (calculate_dimensions s).num_bents := by
    rw [calc_num_bents]; exact le_max_left _ _
  have h1 : 1 < (calculate_dimensions s).num_bents := by omega
  refine ⟨h1, ?_⟩
  rw [calc_bent_spacing, if_pos h1]
  have hne : (((calculate_dimensions s).num_bents : ℚ) - 1) ≠ 0 := by
    have : (2 : ℚ) ≤ ((calculate_dimensions s).num_bents : ℚ) := by exact_mod_cast h2
    linarith
  exact div_mul_cancel₀ _ hne

/-- Witness for C5: the spacing identity at the spec's end-to-end example
(4 bents spaced 40/3 ft apart cover the 40 ft length). -/
theorem bent_spacing_times_gaps_witness :
    valid_spec ⟨40, 30, 10, 1/2, 40⟩ ∧
    (calculate_dimensions ⟨40, 30, 10, 1/2, 40⟩).bent_spacing *
      (((calculate_dimensions ⟨40, 30, 10, 1/2, 40⟩).num_bents : ℚ) - 1) = (40 : ℚ) :=
  ⟨by norm_num [valid_spec],
    (bent_spacing_times_gaps ⟨40, 30, 10, 1/2, 40⟩ (by norm_num [valid_spec])).2⟩

/-- Claim C6: the derived ridge height is
`wall_height + (width / 2) * roof_pitch` for every spec, and equals 17.5 ft
for wall height 10, width 30 and pitch 0.5. -/
theorem ridge_height_formula :
    (∀ s : StructureSpec,
      (calculate_dimensions s).ridge_height = s.wall_height + s.width / 2 * s.roof_pitch) ∧
    (calculate_dimensions ⟨40, 30, 10, 1/2, 40⟩).ridge_height = 35 / 2 :=
  ⟨fun _ => rfl, by norm_num [calc_ridge_height]⟩

/-- Claim C7: the report's material quantities are `2 * num_bents` posts,
`num_bents` beams, `2 * num_bents` rafters of length
`(width / 2) / cos(atan(pitch))` each, and `ceil(length * 2 / 16)` plates.
The quantities are pure functions of the spec, so generating the report has
no side effect beyond producing its text. -/
theorem report_quantities_formula :
    (∀ s : StructureSpec,
      (report_quantities s).post_pieces = 2 * (calculate_dimensions s).num_bents ∧
      (report_quantities s).beam_pieces = (calculate_dimensions s).num_bents ∧
      (report_quantities s).rafter_pieces = 2 * (calculate_dimensions s).num_bents ∧
      (report_quantities s).plate_pieces = ⌈s.length * 2 / 16⌉) ∧
    (∀ s : StructureSpec,
      report_rafter_length s = ((s.width : ℝ) / 2) / Real.cos (Real.arctan (s.roof_pitch : ℝ))) := by
  refine ⟨fun s => ⟨mul_comm _ 2, rfl, mul_comm _ 2, ?_⟩, fun s => rfl⟩
  exact pyInt_intCast _

/-- Claim C8: on any stream of typed lines, `get_positive_float` skips
non-numeric lines, non-positive values, and values outside the given
bounds, and returns the first entered value that is positive and within
the bounds (`spec_accepts`). -/
theorem get_positive_float_first_accepted (min_val max_val : Option ℚ)
    (inputs : List (Option ℚ)) :
    get_positive_float min_val max_val inputs =
      (inputs.filterMap
        (fun line =>
          line.bind (fun v => if spec_accepts min_val max_val v then some v else none))).head? := by
  induction inputs with
  | nil => rfl
  | cons line rest ih =>
    cases line with
    | none => simpa [get_positive_float, List.filterMap_cons] using ih
    | some v =>
      by_cases h0 : v ≤ 0
      · have hacc : spec_accepts min_val max_val v = false := by
          simp [spec_accepts, not_lt.mpr h0]
        simp [get_positive_float, h0, hacc, List.filterMap_cons, ih]
      · by_cases hmin : min_val.any (fun m => decide (v < m)) = true
        · have hacc : spec_accepts min_val max_val v = false := by
            rcases min_val with _ | m
            · simp at hmin
            · simp only [Option.any_some, decide_eq_true_eq] at hmin
              simp [spec_accepts, not_le.mpr hmin]
          simp [get_positive_float, h0, hmin, hacc, List.filterMap_cons, ih]
        · by_cases hmax : max_val.any (fun m => decide (m < v)) = true
          · have hacc : spec_accepts min_val max_val v = false := by
              rcases max_val with _ | m
              · simp at hmax
              · simp only [Option.any_some, decide_eq_true_eq] at hmax
                simp [spec_accepts, not_le.mpr hmax]
            simp [get_positive_float, h0, hmin, hmax, hacc, List.filterMap_cons, ih]
          · have hacc : spec_accepts min_val max_val v = true := by
              rcases min_val with _ | m <;> rcases max_val with _ | M <;>
                simp_all [spec_accepts, not_lt.mp, le_of_not_lt]
            simp [get_positive_float, h0, hmin, hmax, hacc, List.filterMap_cons]

/-- Claim C9: the classified `(span_category, load_category)` pair is
always a key of the corresponding table, for beams and for rafters, so the
absent-key fallbacks `(12, 18)` and `(8, 14)` of the `.get` calls are never
returned through the absent-key branch. -/
theorem classified_pair_always_in_table (span load : ℚ) :
    (beam_sizes.find?
        (fun e => decide (e.1 = (beam_span_cat span, load_cat load)))).isSome = true ∧
    (rafter_sizes.find?
        (fun e => decide (e.1 = (rafter_span_cat span, load_cat load)))).isSome = true := by
  constructor
  · rcases beam_span_cat_cases span with h | h | h | h <;>
      rcases load_cat_cases load with h' | h' | h' | h' <;> rw [h, h'] <;> decide
  · rcases rafter_span_cat_cases span with h | h <;>
      rcases load_cat_cases load with h' | h' | h' | h' <;> rw [h, h'] <;> decide

/-- Claim C10: `get_post_size` is monotone: for loads `0 ≤ L1 ≤ L2` the
size selected for `L1` is componentwise at most the size selected for
`L2`. -/
theorem get_post_size_monotone (L1 L2 : ℚ) (h0 : 0 ≤ L1) (h12 : L1 ≤ L2) :
    (get_post_size L1).1 ≤ (get_post_size L2).1 ∧
    (get_post_size L1).2 ≤ (get_post_size L2).2 := by
  rw [get_post_size_eq L1 h0, get_post_size_eq L2 (le_trans h0 h12)]
  split_ifs <;> constructor <;> simp <;> linarith

/-- Witness for C10: monotonicity applied at the concrete loads 20 and
60. -/
theorem get_post_size_monotone_witness :
    (0 : ℚ) ≤ 20 ∧ (20 : ℚ) ≤ 60 ∧
    (get_post_size 20).1 ≤ (get_post_size 60).1 ∧
    (get_post_size 20).2 ≤ (get_post_size 60).2 :=
  ⟨by norm_num, by norm_num,
    (get_post_size_monotone 20 60 (by norm_num) (by norm_num)).1,
    (get_post_size_monotone 20 60 (by norm_num) (by norm_num)).2⟩

end TimberFrame
